import Mathlib

/-!
Verification of `src/vspreview/toolbars/comp/settings.py` (the comparison-toolbar
settings panel of vs-preview) against its specification.

The file under verification defines a single class:

  class CompSettings(AbstractToolbarSettings):
      __slots__ = ()

      def setup_ui(self) -> None:
          super().setup_ui()

      def set_defaults(self) -> None:
          pass

The base class `AbstractToolbarSettings` lives in `vspreview.core`, which is not part
of the sources under verification; it is therefore modelled abstractly (an arbitrary
pair of state transformers over the observable UI state), and additionally a concrete
instance `specBase` is modelled from the spec for use at concrete inputs.
-/

namespace VSPreview

/-- Observable UI state of a toolbar settings panel. Modelled from the spec: the base
class's setup operation establishes a base layout container (its only documented
effect), and a base defaults operation would reset configuration to baseline; both
are tracked as observable flags. -/
structure UIState where
  baseLayoutEstablished : Bool
  defaultsApplied : Bool
deriving DecidableEq, Repr

/-- Errors that the host framework or the base class may raise. The component under
verification introduces no errors of its own, so an abstract error code suffices. -/
inductive HostError where
  | baseFailure (code : Nat)
deriving DecidableEq, Repr

/-- Result of a lifecycle operation: a new observable state, or a propagated error. -/
abbrev UIResult := Except HostError UIState

/-- Modelled from the spec: the abstract base class `AbstractToolbarSettings` is
imported from `vspreview.core`, which is not among the sources under verification.
It is modelled as an arbitrary pair of state transformers over the observable UI
state, so theorems quantified over it hold for every possible base behavior. -/
structure AbstractToolbarSettings where
  setup_ui : UIState → UIResult
  set_defaults : UIState → UIResult

/-- `CompSettings.setup_ui` (settings.py, lines 11-12): the override's entire body is
the super call, i.e. it invokes the base class's `setup_ui` on the current state. -/
def CompSettings.setup_ui (B : AbstractToolbarSettings) (s : UIState) : UIResult :=
  B.setup_ui s

/-- `CompSettings.set_defaults` (settings.py, lines 14-15): the body is `pass` — no
action, no super call, no return value; the state is left exactly as it was. -/
def CompSettings.set_defaults (_B : AbstractToolbarSettings) (s : UIState) : UIResult :=
  Except.ok s

/-- The per-instance attribute names `CompSettings` declares beyond its base class:
`__slots__ = ()` (settings.py, line 9), i.e. none. -/
def CompSettings.slots : List String := []

/-- The full per-instance attribute set of a `CompSettings` instance, given the base
class's attribute set: the base attributes followed by the subclass's own slots.
Attribute declarations are class-level and static, so no runtime operation can
change this set. -/
def CompSettings.instanceAttrs (baseAttrs : List String) : List String :=
  baseAttrs ++ CompSettings.slots

/-- The two externally-triggered lifecycle callbacks of the panel. -/
inductive Op where
  | setup
  | defaults
deriving DecidableEq, Repr

/-- Dispatch one lifecycle callback on a `CompSettings` instance. -/
def CompSettings.run (B : AbstractToolbarSettings) : Op → UIState → UIResult
  | Op.setup => CompSettings.setup_ui B
  | Op.defaults => CompSettings.set_defaults B

/-- Run a finite sequence of lifecycle callbacks in order, stopping at the first
propagated error. -/
def CompSettings.runSeq (B : AbstractToolbarSettings) : List Op → UIState → UIResult
  | [], s => Except.ok s
  | op :: ops, s => Except.bind (CompSettings.run B op s) (CompSettings.runSeq B ops)

/-- Modelled from the spec: a concrete base-class behavior realising exactly the
documented effects — `setup_ui` establishes the base layout container, and
`set_defaults` resets configuration to baseline. It never raises. -/
def specBase : AbstractToolbarSettings where
  setup_ui := fun s => Except.ok { s with baseLayoutEstablished := true }
  set_defaults := fun s => Except.ok { s with defaultsApplied := true }

/-- Binding a result against the trivial continuation returns the result itself. -/
theorem bind_ok_id (r : UIResult) : Except.bind r Except.ok = r := by
  cases r <;> rfl

/-- Running a sequence with a defaults call inserted anywhere equals running the
sequence without it: `set_defaults` is invisible to any interleaving. -/
theorem runSeq_erase_defaults (B : AbstractToolbarSettings) (l1 l2 : List Op)
    (s : UIState) :
    CompSettings.runSeq B (l1 ++ Op.defaults :: l2) s = CompSettings.runSeq B (l1 ++ l2) s := by
  induction l1 generalizing s with
  | nil => rfl
  | cons op l1 ih =>
    show Except.bind (CompSettings.run B op s) _ = Except.bind (CompSettings.run B op s) _
    cases CompSettings.run B op s with
    | ok t => exact ih t
    | error e => rfl

/-- Claim C1: for every base behavior and every host context in which the base
class's setup succeeds, invoking the override `CompSettings.setup_ui` produces
exactly the observable state of invoking the base `setup_ui` alone — the override
delegates to the base and contributes zero additional observable effect. -/
theorem comp_setup_ui_delegates (B : AbstractToolbarSettings) (s t : UIState)
    (h : B.setup_ui s = Except.ok t) :
    CompSettings.setup_ui B s = Except.ok t ∧
      CompSettings.setup_ui B s = B.setup_ui s :=
  ⟨h, rfl⟩

/-- Witness for C1 at the spec-modelled base and the freshly constructed state. -/
theorem comp_setup_ui_delegates_witness :
    CompSettings.setup_ui specBase ⟨false, false⟩ = Except.ok ⟨true, false⟩ ∧
      CompSettings.setup_ui specBase ⟨false, false⟩ = specBase.setup_ui ⟨false, false⟩ :=
  comp_setup_ui_delegates specBase ⟨false, false⟩ ⟨true, false⟩ rfl

/-- Claim C2: for every base behavior and every state of a constructed panel,
`set_defaults` performs no action: the resulting state is exactly the input state,
and no error is produced. -/
theorem comp_set_defaults_noop (B : AbstractToolbarSettings) (s : UIState) :
    CompSettings.set_defaults B s = Except.ok s :=
  rfl

/-- Claim C3: a `set_defaults` call inserted at any position of any finite callback
sequence has no observable effect and never raises; in particular the scenario
construct → setup_ui → set_defaults → set_defaults yields exactly the base setup's
outcome, with the state unchanged by each of the two defaults calls. -/
theorem comp_set_defaults_interleaving (B : AbstractToolbarSettings) :
    (∀ (l1 l2 : List Op) (s : UIState),
        CompSettings.runSeq B (l1 ++ Op.defaults :: l2) s =
          CompSettings.runSeq B (l1 ++ l2) s) ∧
    (∀ s : UIState,
        CompSettings.runSeq B [Op.setup, Op.defaults, Op.defaults] s = B.setup_ui s) := by
  refine ⟨runSeq_erase_defaults B, fun s => ?_⟩
  show Except.bind (B.setup_ui s) _ = B.setup_ui s
  exact bind_ok_id (B.setup_ui s)

/-- Claim C4: for every base behavior, `CompSettings.setup_ui` raises exactly when
the base's `setup_ui` raises and propagates the base's error unchanged (its outcome
is the base's outcome), while `set_defaults` never raises. -/
theorem comp_error_propagation (B : AbstractToolbarSettings) (s : UIState) :
    CompSettings.setup_ui B s = B.setup_ui s ∧
    (∀ e : HostError,
        CompSettings.setup_ui B s = Except.error e ↔ B.setup_ui s = Except.error e) ∧
    (∀ e : HostError, CompSettings.set_defaults B s ≠ Except.error e) :=
  ⟨rfl, fun _ => Iff.rfl, fun e h => by exact absurd h (by simp [CompSettings.set_defaults])⟩

/-- Claim C5: `CompSettings` declares no per-instance attributes of its own
(`__slots__` is empty), so its full per-instance attribute set equals the base
class's attribute set; the attribute set is a static class-level declaration, hence
unchanged by construction and by every operation. -/
theorem comp_no_extra_attrs :
    CompSettings.slots = [] ∧
      ∀ baseAttrs : List String, CompSettings.instanceAttrs baseAttrs = baseAttrs :=
  ⟨rfl, fun baseAttrs => List.append_nil baseAttrs⟩

/-- Claim C6: under the spec-modelled base behavior, both callbacks are idempotent —
calling either twice equals calling it once — and any interleaving of repeated calls
yields the same final state as the minimal sequence (one setup call if any setup
occurs, nothing otherwise). -/
theorem comp_callbacks_idempotent :
    (∀ s : UIState,
        CompSettings.runSeq specBase [Op.setup, Op.setup] s =
          CompSettings.runSeq specBase [Op.setup] s) ∧
    (∀ s : UIState,
        CompSettings.runSeq specBase [Op.defaults, Op.defaults] s =
          CompSettings.runSeq specBase [Op.defaults] s) ∧
    (∀ (ops : List Op) (s : UIState),
        CompSettings.runSeq specBase ops s =
          CompSettings.runSeq specBase (if Op.setup ∈ ops then [Op.setup] else []) s) := by
  refine ⟨fun s => rfl, fun s => rfl, fun ops => ?_⟩
  induction ops with
  | nil => intro s; rfl
  | cons op ops ih =>
    intro s
    cases op with
    | setup =>
      show CompSettings.runSeq specBase ops { s with baseLayoutEstablished := true } = _
      rw [ih]
      simp only [List.mem_cons, true_or, if_true]
      by_cases h : Op.setup ∈ ops <;> simp [h, CompSettings.runSeq, CompSettings.run,
        CompSettings.setup_ui, specBase, Except.bind]
    | defaults =>
      show CompSettings.runSeq specBase ops s = _
      rw [ih]
      by_cases h : Op.setup ∈ ops <;> simp [h]

/-- Claim C8: `set_defaults` does not delegate to the base class — for every base
behavior it returns the state unchanged — and consequently any default-applying
behavior of the base (here the spec-modelled baseline reset) is suppressed when the
host invokes `set_defaults` polymorphically on a `CompSettings` instance. -/
theorem comp_set_defaults_suppresses_base :
    (∀ (B : AbstractToolbarSettings) (s : UIState),
        CompSettings.set_defaults B s = Except.ok s) ∧
    (∃ s : UIState, CompSettings.set_defaults specBase s ≠ specBase.set_defaults s) := by
  refine ⟨fun B s => rfl, ⟨⟨false, false⟩, ?_⟩⟩
  simp [CompSettings.set_defaults, specBase]

/-- Claim C9: both operations are deterministic — two runs from equal states produce
equal outcomes (the base class, being modelled as a function, is deterministic by
assumption). -/
theorem comp_ops_deterministic (B : AbstractToolbarSettings) (s1 s2 : UIState)
    (h : s1 = s2) :
    CompSettings.setup_ui B s1 = CompSettings.setup_ui B s2 ∧
      CompSettings.set_defaults B s1 = CompSettings.set_defaults B s2 := by
  subst h; exact ⟨rfl, rfl⟩

/-- Witness for C9 at the spec-modelled base and a concrete state. -/
theorem comp_ops_deterministic_witness :
    CompSettings.setup_ui specBase ⟨false, true⟩ = CompSettings.setup_ui specBase ⟨false, true⟩ ∧
      CompSettings.set_defaults specBase ⟨false, true⟩ =
        CompSettings.set_defaults specBase ⟨false, true⟩ :=
  comp_ops_deterministic specBase ⟨false, true⟩ ⟨false, true⟩ rfl

end VSPreview
